import Mathlib

/-!
Shallow embedding of the `create_grid` routine of the configuration-space
notebook.  Obstacle data rows are six rational scalars; the grid is built by
computing the world bounding extent from the uninflated footprints, allocating
a zero grid, and marking, for each obstacle that passes the altitude test, the
clamped margin-inflated index rectangle with value 1.
-/

namespace ConfigSpace

/-- One row of the obstacle data: center position (north, east, altitude) and
half-extents (`dNorth`, `dEast`, `dAlt`), as in the csv columns. -/
structure Obstacle where
  north : ℚ
  east : ℚ
  alt : ℚ
  dNorth : ℚ
  dEast : ℚ
  dAlt : ℚ
deriving DecidableEq

/-- Minimum of a list of rationals, `np.min` style (junk value 0 on `[]`;
`create_grid` rejects the empty list before calling it). -/
def listMinD : List ℚ → ℚ
  | [] => 0
  | x :: xs => xs.foldl min x

/-- Maximum of a list of rationals, `np.max` style. -/
def listMaxD : List ℚ → ℚ
  | [] => 0
  | x :: xs => xs.foldl max x

/-- `north_min = np.floor(np.min(data[:, 0] - data[:, 3]))`. -/
def northMin (data : List Obstacle) : ℤ :=
  ⌊listMinD (data.map fun o => o.north - o.dNorth)⌋

/-- `north_max = np.ceil(np.max(data[:, 0] + data[:, 3]))`. -/
def northMax (data : List Obstacle) : ℤ :=
  ⌈listMaxD (data.map fun o => o.north + o.dNorth)⌉

/-- `east_min = np.floor(np.min(data[:, 1] - data[:, 4]))`. -/
def eastMin (data : List Obstacle) : ℤ :=
  ⌊listMinD (data.map fun o => o.east - o.dEast)⌋

/-- `east_max = np.ceil(np.max(data[:, 1] + data[:, 4]))`. -/
def eastMax (data : List Obstacle) : ℤ :=
  ⌈listMaxD (data.map fun o => o.east + o.dEast)⌉

/-- `north_size = int(np.ceil(north_max - north_min))`. -/
def northSize (data : List Obstacle) : ℤ :=
  ⌈((northMax data : ℚ) - (northMin data : ℚ))⌉

/-- `east_size = int(np.ceil(east_max - east_min))`. -/
def eastSize (data : List Obstacle) : ℤ :=
  ⌈((eastMax data : ℚ) - (eastMin data : ℚ))⌉

/-- `np.clip(x, lo, hi) = min (max x lo) hi`. -/
def clip (x lo hi : ℚ) : ℚ := min (max x lo) hi

/-- Python `int(...)` on a float: truncation toward zero. -/
def pyInt (q : ℚ) : ℤ := if 0 ≤ q then ⌊q⌋ else ⌈q⌉

/-- `obstacle[0]`: clamped low north index of the inflated footprint. -/
def obN0 (o : Obstacle) (sd : ℚ) (nmin ns : ℤ) : ℤ :=
  pyInt (clip (o.north - o.dNorth - sd - (nmin : ℚ)) 0 ((ns : ℚ) - 1))

/-- `obstacle[1]`: clamped high north index of the inflated footprint. -/
def obN1 (o : Obstacle) (sd : ℚ) (nmin ns : ℤ) : ℤ :=
  pyInt (clip (o.north + o.dNorth + sd - (nmin : ℚ)) 0 ((ns : ℚ) - 1))

/-- `obstacle[2]`: clamped low east index of the inflated footprint. -/
def obE0 (o : Obstacle) (sd : ℚ) (emin es : ℤ) : ℤ :=
  pyInt (clip (o.east - o.dEast - sd - (emin : ℚ)) 0 ((es : ℚ) - 1))

/-- `obstacle[3]`: clamped high east index of the inflated footprint. -/
def obE1 (o : Obstacle) (sd : ℚ) (emin es : ℤ) : ℤ :=
  pyInt (clip (o.east + o.dEast + sd - (emin : ℚ)) 0 ((es : ℚ) - 1))

/-- `grid[r0:r1+1, c0:c1+1] = 1`: slice assignment of the value 1. -/
def markRect (g : ℕ → ℕ → ℕ) (r0 r1 c0 c1 : ℤ) : ℕ → ℕ → ℕ :=
  fun r c =>
    if r0 ≤ (r : ℤ) ∧ (r : ℤ) ≤ r1 ∧ c0 ≤ (c : ℤ) ∧ (c : ℤ) ≤ c1 then 1 else g r c

/-- Loop body of `create_grid`: altitude test, then mark the clamped inflated
footprint rectangle. -/
def processObstacle (da sd : ℚ) (nmin emin ns es : ℤ) (g : ℕ → ℕ → ℕ)
    (o : Obstacle) : ℕ → ℕ → ℕ :=
  if da < o.alt + o.dAlt + sd then
    markRect g (obN0 o sd nmin ns) (obN1 o sd nmin ns)
      (obE0 o sd emin es) (obE1 o sd emin es)
  else g

/-- The obstacle loop of `create_grid`, starting from grid `g`. -/
def populate (da sd : ℚ) (nmin emin ns es : ℤ) (data : List Obstacle)
    (g : ℕ → ℕ → ℕ) : ℕ → ℕ → ℕ :=
  data.foldl (processObstacle da sd nmin emin ns es) g

/-- Result of `create_grid`: the sizes and origin computed from the data, and
the cell contents (`cells r c` is row `r`, column `c`; cells outside the
`north_size x east_size` range are irrelevant). -/
structure Grid where
  north_size : ℕ
  east_size : ℕ
  north_min : ℤ
  east_min : ℤ
  cells : ℕ → ℕ → ℕ

/-- The `create_grid` routine.  `none` models the two failure points of the
source: `np.min`/`np.max` on an empty array (empty obstacle list) and
`np.zeros` on a negative dimension. -/
def create_grid (data : List Obstacle) (drone_altitude safety_distance : ℚ) :
    Option Grid :=
  if data = [] then none
  else if northSize data < 0 ∨ eastSize data < 0 then none
  else some
    { north_size := (northSize data).toNat
      east_size := (eastSize data).toNat
      north_min := northMin data
      east_min := eastMin data
      cells := populate drone_altitude safety_distance (northMin data)
        (eastMin data) (northSize data) (eastSize data) data (fun _ _ => 0) }

/-- The condition under which the loop body marks cell `(r, c)` for obstacle
`o`: the altitude test passes and `(r, c)` lies in the clamped inflated index
rectangle. -/
def marksCell (da sd : ℚ) (nmin emin ns es : ℤ) (o : Obstacle) (r c : ℕ) :
    Prop :=
  da < o.alt + o.dAlt + sd ∧
    obN0 o sd nmin ns ≤ (r : ℤ) ∧ (r : ℤ) ≤ obN1 o sd nmin ns ∧
    obE0 o sd emin es ≤ (c : ℤ) ∧ (c : ℤ) ≤ obE1 o sd emin es

instance (da sd : ℚ) (nmin emin ns es : ℤ) (o : Obstacle) (r c : ℕ) :
    Decidable (marksCell da sd nmin emin ns es o r c) :=
  inferInstanceAs (Decidable (_ ∧ _))

/-! ### Basic facts about the folded minimum / maximum -/

theorem foldl_min_le_init (x : ℚ) (xs : List ℚ) : xs.foldl min x ≤ x := by
  induction xs generalizing x with
  | nil => exact le_refl x
  | cons a xs ih => exact le_trans (ih (min x a)) (min_le_left x a)

theorem foldl_min_le_mem {y : ℚ} {xs : List ℚ} (x : ℚ) (hy : y ∈ xs) :
    xs.foldl min x ≤ y := by
  induction xs generalizing x with
  | nil => cases hy
  | cons a xs ih =>
    rcases List.mem_cons.mp hy with h | h
    · subst h
      exact le_trans (foldl_min_le_init (min x y) xs) (min_le_right x y)
    · exact ih _ h

theorem foldl_min_choice (x : ℚ) (xs : List ℚ) :
    xs.foldl min x = x ∨ xs.foldl min x ∈ xs := by
  induction xs generalizing x with
  | nil => exact Or.inl rfl
  | cons a xs ih =>
    rcases ih (min x a) with h | h
    · rcases min_choice x a with hc | hc
      · exact Or.inl (by rw [List.foldl_cons, h, hc])
      · exact Or.inr (by rw [List.foldl_cons, h, hc]; exact List.mem_cons_self a xs)
    · exact Or.inr (List.mem_cons_of_mem a h)

theorem init_le_foldl_max (x : ℚ) (xs : List ℚ) : x ≤ xs.foldl max x := by
  induction xs generalizing x with
  | nil => exact le_refl x
  | cons a xs ih => exact le_trans (le_max_left x a) (ih (max x a))

theorem mem_le_foldl_max {y : ℚ} {xs : List ℚ} (x : ℚ) (hy : y ∈ xs) :
    y ≤ xs.foldl max x := by
  induction xs generalizing x with
  | nil => cases hy
  | cons a xs ih =>
    rcases List.mem_cons.mp hy with h | h
    · subst h
      exact le_trans (le_max_right x y) (init_le_foldl_max (max x y) xs)
    · exact ih _ h

theorem foldl_max_choice (x : ℚ) (xs : List ℚ) :
    xs.foldl max x = x ∨ xs.foldl max x ∈ xs := by
  induction xs generalizing x with
  | nil => exact Or.inl rfl
  | cons a xs ih =>
    rcases ih (max x a) with h | h
    · rcases max_choice x a with hc | hc
      · exact Or.inl (by rw [List.foldl_cons, h, hc])
      · exact Or.inr (by rw [List.foldl_cons, h, hc]; exact List.mem_cons_self a xs)
    · exact Or.inr (List.mem_cons_of_mem a h)

theorem listMinD_mem {l : List ℚ} (h : l ≠ []) : listMinD l ∈ l := by
  match l with
  | [] => exact absurd rfl h
  | x :: xs =>
    show xs.foldl min x ∈ x :: xs
    rcases foldl_min_choice x xs with hc | hc
    · rw [hc]; exact List.mem_cons_self x xs
    · exact List.mem_cons_of_mem x hc

theorem listMinD_le {l : List ℚ} {y : ℚ} (hy : y ∈ l) : listMinD l ≤ y := by
  match l with
  | [] => cases hy
  | x :: xs =>
    rcases List.mem_cons.mp hy with h | h
    · exact h ▸ foldl_min_le_init x xs
    · exact foldl_min_le_mem x h

theorem listMaxD_mem {l : List ℚ} (h : l ≠ []) : listMaxD l ∈ l := by
  match l with
  | [] => exact absurd rfl h
  | x :: xs =>
    show xs.foldl max x ∈ x :: xs
    rcases foldl_max_choice x xs with hc | hc
    · rw [hc]; exact List.mem_cons_self x xs
    · exact List.mem_cons_of_mem x hc

theorem le_listMaxD {l : List ℚ} {y : ℚ} (hy : y ∈ l) : y ≤ listMaxD l := by
  match l with
  | [] => cases hy
  | x :: xs =>
    rcases List.mem_cons.mp hy with h | h
    · exact h ▸ init_le_foldl_max x xs
    · exact mem_le_foldl_max x h

theorem listMinD_perm {l l' : List ℚ} (p : l.Perm l') : listMinD l = listMinD l' := by
  match l, l' with
  | [], l' => rw [p.nil_eq]
  | x :: xs, [] => exact absurd p.symm.nil_eq (by simp)
  | x :: xs, y :: ys =>
    apply le_antisymm
    · exact listMinD_le (p.mem_iff.mpr (listMinD_mem (by simp)))
    · exact listMinD_le (p.mem_iff.mp (listMinD_mem (by simp)))

theorem listMaxD_perm {l l' : List ℚ} (p : l.Perm l') : listMaxD l = listMaxD l' := by
  match l, l' with
  | [], l' => rw [p.nil_eq]
  | x :: xs, [] => exact absurd p.symm.nil_eq (by simp)
  | x :: xs, y :: ys =>
    apply le_antisymm
    · exact le_listMaxD (p.mem_iff.mp (listMaxD_mem (by simp)))
    · exact le_listMaxD (p.mem_iff.mpr (listMaxD_mem (by simp)))

/-! ### Facts about `pyInt` and `clip` -/

theorem pyInt_of_nonneg {q : ℚ} (h : 0 ≤ q) : pyInt q = ⌊q⌋ := if_pos h

theorem pyInt_intCast (n : ℤ) : pyInt (n : ℚ) = n := by
  unfold pyInt
  split
  · exact Int.floor_intCast n
  · exact Int.ceil_intCast n

theorem pyInt_mono {a b : ℚ} (h : a ≤ b) : pyInt a ≤ pyInt b := by
  unfold pyInt
  split
  · rw [if_pos (le_trans (by assumption) h)]
    exact Int.floor_le_floor h
  · split
    · calc ⌈a⌉ ≤ 0 := Int.ceil_le.mpr (by push_cast; exact le_of_not_le (by assumption))
        _ ≤ ⌊b⌋ := Int.floor_nonneg.mpr (by assumption)
    · exact Int.ceil_le_ceil h

theorem clip_le_hi (x lo hi : ℚ) : clip x lo hi ≤ hi := min_le_right _ _

theorem lo_le_clip {x lo hi : ℚ} (h : lo ≤ hi) : lo ≤ clip x lo hi :=
  le_min (le_max_right x lo) h

theorem clip_mono {a b : ℚ} (lo hi : ℚ) (h : a ≤ b) : clip a lo hi ≤ clip b lo hi :=
  min_le_min (max_le_max h (le_refl lo)) (le_refl hi)

/-! ### Characterization of the populated grid -/

theorem processObstacle_apply (da sd : ℚ) (nmin emin ns es : ℤ) (g : ℕ → ℕ → ℕ)
    (o : Obstacle) (r c : ℕ) :
    processObstacle da sd nmin emin ns es g o r c =
      if marksCell da sd nmin emin ns es o r c then 1 else g r c := by
  unfold processObstacle markRect marksCell
  by_cases h : da < o.alt + o.dAlt + sd
  · rw [if_pos h]
    by_cases h2 : obN0 o sd nmin ns ≤ (r : ℤ) ∧ (r : ℤ) ≤ obN1 o sd nmin ns ∧
        obE0 o sd emin es ≤ (c : ℤ) ∧ (c : ℤ) ≤ obE1 o sd emin es
    · rw [if_pos h2, if_pos ⟨h, h2⟩]
    · rw [if_neg h2, if_neg (fun hc => h2 hc.2)]
  · rw [if_neg h, if_neg (fun hc => h hc.1)]

theorem processObstacle_skip (da sd : ℚ) (nmin emin ns es : ℤ) (g : ℕ → ℕ → ℕ)
    (o : Obstacle) (h : ¬ da < o.alt + o.dAlt + sd) :
    processObstacle da sd nmin emin ns es g o = g := if_neg h

theorem populate_apply (da sd : ℚ) (nmin emin ns es : ℤ) (data : List Obstacle)
    (g : ℕ → ℕ → ℕ) (r c : ℕ) :
    populate da sd nmin emin ns es data g r c =
      if ∃ o ∈ data, marksCell da sd nmin emin ns es o r c then 1 else g r c := by
  induction data generalizing g with
  | nil => simp [populate]
  | cons o os ih =>
    show populate da sd nmin emin ns es os
      (processObstacle da sd nmin emin ns es g o) r c = _
    rw [ih, processObstacle_apply]
    by_cases hos : ∃ o' ∈ os, marksCell da sd nmin emin ns es o' r c
    · obtain ⟨o', ho', hm⟩ := hos
      rw [if_pos ⟨o', ho', hm⟩, if_pos ⟨o', List.mem_cons_of_mem o ho', hm⟩]
    · rw [if_neg hos]
      by_cases ho : marksCell da sd nmin emin ns es o r c
      · rw [if_pos ho, if_pos ⟨o, List.mem_cons_self o os, ho⟩]
      · rw [if_neg ho, if_neg ?_]
        rintro ⟨o', ho', hm⟩
        rcases List.mem_cons.mp ho' with h | h
        · exact ho (h ▸ hm)
        · exact hos ⟨o', h, hm⟩

/-! ### Inversion of `create_grid` and bounds of the computed sizes -/

theorem create_grid_eq_some {data : List Obstacle} {da sd : ℚ} {g : Grid}
    (h : create_grid data da sd = some g) :
    data ≠ [] ∧ 0 ≤ northSize data ∧ 0 ≤ eastSize data ∧
      g.north_size = (northSize data).toNat ∧ g.east_size = (eastSize data).toNat ∧
      g.north_min = northMin data ∧ g.east_min = eastMin data ∧
      g.cells = populate da sd (northMin data) (eastMin data) (northSize data)
        (eastSize data) data (fun _ _ => 0) := by
  unfold create_grid at h
  by_cases h1 : data = []
  · rw [if_pos h1] at h; cases h
  · rw [if_neg h1] at h
    by_cases h2 : northSize data < 0 ∨ eastSize data < 0
    · rw [if_pos h2] at h; cases h
    · rw [if_neg h2] at h
      push_neg at h2
      cases h
      exact ⟨h1, h2.1, h2.2, rfl, rfl, rfl, rfl, rfl⟩

theorem northSize_eq (data : List Obstacle) :
    northSize data = northMax data - northMin data := by
  unfold northSize
  rw [show ((northMax data : ℚ) - (northMin data : ℚ)) =
      ((northMax data - northMin data : ℤ) : ℚ) by push_cast; ring]
  exact Int.ceil_intCast _

theorem eastSize_eq (data : List Obstacle) :
    eastSize data = eastMax data - eastMin data := by
  unfold eastSize
  rw [show ((eastMax data : ℚ) - (eastMin data : ℚ)) =
      ((eastMax data - eastMin data : ℤ) : ℚ) by push_cast; ring]
  exact Int.ceil_intCast _

theorem northSize_nonneg {data : List Obstacle} (hne : data ≠ [])
    (hdn : ∀ o ∈ data, 0 ≤ o.dNorth) : 0 ≤ northSize data := by
  obtain ⟨o, ho⟩ := List.exists_mem_of_ne_nil data hne
  have h1 : listMinD (data.map fun x => x.north - x.dNorth) ≤ o.north - o.dNorth :=
    listMinD_le (List.mem_map_of_mem _ ho)
  have h2 : o.north + o.dNorth ≤ listMaxD (data.map fun x => x.north + x.dNorth) :=
    le_listMaxD (List.mem_map_of_mem _ ho)
  have h0 : ((northMin data : ℤ) : ℚ) ≤
      listMinD (data.map fun x => x.north - x.dNorth) := Int.floor_le _
  have h3 : listMaxD (data.map fun x => x.north + x.dNorth) ≤
      ((northMax data : ℤ) : ℚ) := Int.le_ceil _
  have hd := hdn o ho
  have : ((northMin data : ℤ) : ℚ) ≤ ((northMax data : ℤ) : ℚ) := by linarith
  have h4 : northMin data ≤ northMax data := by exact_mod_cast this
  rw [northSize_eq]; omega

theorem eastSize_nonneg {data : List Obstacle} (hne : data ≠ [])
    (hde : ∀ o ∈ data, 0 ≤ o.dEast) : 0 ≤ eastSize data := by
  obtain ⟨o, ho⟩ := List.exists_mem_of_ne_nil data hne
  have h1 : listMinD (data.map fun x => x.east - x.dEast) ≤ o.east - o.dEast :=
    listMinD_le (List.mem_map_of_mem _ ho)
  have h2 : o.east + o.dEast ≤ listMaxD (data.map fun x => x.east + x.dEast) :=
    le_listMaxD (List.mem_map_of_mem _ ho)
  have h0 : ((eastMin data : ℤ) : ℚ) ≤
      listMinD (data.map fun x => x.east - x.dEast) := Int.floor_le _
  have h3 : listMaxD (data.map fun x => x.east + x.dEast) ≤
      ((eastMax data : ℤ) : ℚ) := Int.le_ceil _
  have hd := hde o ho
  have : ((eastMin data : ℤ) : ℚ) ≤ ((eastMax data : ℤ) : ℚ) := by linarith
  have h4 : eastMin data ≤ eastMax data := by exact_mod_cast this
  rw [eastSize_eq]; omega

/-! ### The altitude filter -/

theorem populate_filter (da sd : ℚ) (nmin emin ns es : ℤ) (data : List Obstacle)
    (g : ℕ → ℕ → ℕ) :
    populate da sd nmin emin ns es data g =
      populate da sd nmin emin ns es
        (data.filter fun o => decide (da < o.alt + o.dAlt + sd)) g := by
  induction data generalizing g with
  | nil => rfl
  | cons o os ih =>
    by_cases h : da < o.alt + o.dAlt + sd
    · rw [List.filter_cons_of_pos (by simpa using h)]
      have ih' := ih (processObstacle da sd nmin emin ns es g o)
      simpa only [populate, List.foldl_cons] using ih'
    · rw [List.filter_cons_of_neg (by simpa using h)]
      show populate da sd nmin emin ns es os
        (processObstacle da sd nmin emin ns es g o) = _
      rw [processObstacle_skip da sd nmin emin ns es g o h]
      exact ih g

/-! ### Spec-side coverage predicate (the BLOCKED guarantee of the spec) -/

/-- Spec-side coverage, one axis: some point of the margin-inflated,
origin-translated footprint interval, with both bounds clamped into the index
range `[0, s-1]` (spec step d), lies in the cell's half-open unit interval
`[i, i+1)`.  This is the reading of "the clamped inflated footprint covers the
cell's world-coordinate unit square", taken per axis with the grid partitioned
into half-open unit cells. -/
def coversCell (lo hi : ℚ) (s : ℤ) (i : ℕ) : Prop :=
  ∃ x : ℚ, clip lo 0 ((s : ℚ) - 1) ≤ x ∧ x ≤ clip hi 0 ((s : ℚ) - 1) ∧
    (i : ℚ) ≤ x ∧ x < (i : ℚ) + 1

/-- Spec-side BLOCKED predicate: some obstacle passes the altitude test and
its clamped inflated footprint covers the cell's unit square in both axes. -/
def specBlocked (data : List Obstacle) (da sd : ℚ) (nmin emin ns es : ℤ)
    (r c : ℕ) : Prop :=
  ∃ o ∈ data, da < o.alt + o.dAlt + sd ∧
    coversCell (o.north - o.dNorth - sd - (nmin : ℚ))
      (o.north + o.dNorth + sd - (nmin : ℚ)) ns r ∧
    coversCell (o.east - o.dEast - sd - (emin : ℚ))
      (o.east + o.dEast + sd - (emin : ℚ)) es c

theorem coversCell_iff {lo hi : ℚ} {s : ℤ} {i : ℕ} (hlohi : lo ≤ hi)
    (hs : 1 ≤ s) :
    coversCell lo hi s i ↔
      pyInt (clip lo 0 ((s : ℚ) - 1)) ≤ (i : ℤ) ∧
        (i : ℤ) ≤ pyInt (clip hi 0 ((s : ℚ) - 1)) := by
  have hs1 : (0 : ℚ) ≤ (s : ℚ) - 1 := by
    have : (1 : ℚ) ≤ (s : ℚ) := by exact_mod_cast hs
    linarith
  have hL0 : 0 ≤ clip lo 0 ((s : ℚ) - 1) := le_min (le_max_right lo 0) hs1
  have hH0 : 0 ≤ clip hi 0 ((s : ℚ) - 1) := le_min (le_max_right hi 0) hs1
  have hLH : clip lo 0 ((s : ℚ) - 1) ≤ clip hi 0 ((s : ℚ) - 1) :=
    clip_mono 0 ((s : ℚ) - 1) hlohi
  rw [coversCell, pyInt_of_nonneg hL0, pyInt_of_nonneg hH0]
  constructor
  · rintro ⟨x, h1, h2, h3, h4⟩
    constructor
    · have hlt : clip lo 0 ((s : ℚ) - 1) < (((i : ℤ) + 1 : ℤ) : ℚ) := by
        push_cast
        exact lt_of_le_of_lt h1 h4
      have := Int.floor_lt.mpr hlt
      omega
    · exact Int.le_floor.mpr (by push_cast; linarith)
  · rintro ⟨ha, hb⟩
    have hiH : (((i : ℤ)) : ℚ) ≤ clip hi 0 ((s : ℚ) - 1) := Int.le_floor.mp hb
    have hLi : clip lo 0 ((s : ℚ) - 1) < (((i : ℤ) + 1 : ℤ) : ℚ) :=
      Int.floor_lt.mp (by omega)
    refine ⟨max (clip lo 0 ((s : ℚ) - 1)) (i : ℚ), le_max_left _ _, ?_, ?_, ?_⟩
    · exact max_le hLH (by push_cast at hiH ⊢; linarith)
    · exact le_max_right _ _
    · refine max_lt ?_ (by linarith)
      push_cast at hLi ⊢
      linarith

theorem marksCell_iff_covers {da sd : ℚ} {nmin emin ns es : ℤ} {o : Obstacle}
    {r c : ℕ} (hn : 0 ≤ o.dNorth + sd) (he : 0 ≤ o.dEast + sd)
    (hns : 1 ≤ ns) (hes : 1 ≤ es) :
    marksCell da sd nmin emin ns es o r c ↔
      da < o.alt + o.dAlt + sd ∧
        coversCell (o.north - o.dNorth - sd - (nmin : ℚ))
          (o.north + o.dNorth + sd - (nmin : ℚ)) ns r ∧
        coversCell (o.east - o.dEast - sd - (emin : ℚ))
          (o.east + o.dEast + sd - (emin : ℚ)) es c := by
  unfold marksCell obN0 obN1 obE0 obE1
  rw [coversCell_iff (by linarith) hns, coversCell_iff (by linarith) hes]
  tauto

/-- **C1 (amended)**: for a valid input (non-empty data, non-negative
half-extents) whose margin-inflated half-extents are also non-negative (the
inflated footprints are non-empty intervals), a cell of the returned grid is
BLOCKED (value 1) iff some obstacle passes the altitude test and its clamped
inflated footprint covers the cell's unit square. -/
theorem create_grid_blocked_iff_covered {data : List Obstacle} {da sd : ℚ}
    {g : Grid} (hext : ∀ o ∈ data, 0 ≤ o.dNorth ∧ 0 ≤ o.dEast)
    (hinfl : ∀ o ∈ data, 0 ≤ o.dNorth + sd ∧ 0 ≤ o.dEast + sd)
    (h : create_grid data da sd = some g) {r c : ℕ}
    (hr : r < g.north_size) (hc : c < g.east_size) :
    g.cells r c = 1 ↔
      specBlocked data da sd g.north_min g.east_min (northSize data)
        (eastSize data) r c := by
  obtain ⟨-, hns0, hes0, hns, hes, hnm, hem, hcell⟩ := create_grid_eq_some h
  have hns1 : 1 ≤ northSize data := by rw [hns] at hr; omega
  have hes1 : 1 ≤ eastSize data := by rw [hes] at hc; omega
  have hPQ : (∃ o ∈ data, marksCell da sd (northMin data) (eastMin data)
      (northSize data) (eastSize data) o r c) ↔
      specBlocked data da sd (northMin data) (eastMin data) (northSize data)
        (eastSize data) r c := by
    constructor
    · rintro ⟨o, ho, hm⟩
      exact ⟨o, ho, (marksCell_iff_covers (hinfl o ho).1 (hinfl o ho).2
        hns1 hes1).mp hm⟩
    · rintro ⟨o, ho, hm⟩
      exact ⟨o, ho, (marksCell_iff_covers (hinfl o ho).1 (hinfl o ho).2
        hns1 hes1).mpr hm⟩
  rw [hcell, populate_apply, hnm, hem]
  by_cases hP : ∃ o ∈ data, marksCell da sd (northMin data) (eastMin data)
      (northSize data) (eastSize data) o r c
  · rw [if_pos hP]
    exact ⟨fun _ => hPQ.mp hP, fun _ => rfl⟩
  · rw [if_neg hP]
    exact ⟨fun h0 => absurd h0 (by norm_num), fun hq => absurd (hPQ.mpr hq) hP⟩

/-! ### Concrete fixtures -/

/-- The obstacle of spec Scenario A: (north 0, east 0, altitude 5,
half-north 2, half-east 2, half-height 5). -/
def ob5 : Obstacle := ⟨0, 0, 5, 2, 2, 5⟩

/-- A second obstacle away from `ob5`, for the permutation witness. -/
def ob6 : Obstacle := ⟨10, 10, 5, 2, 2, 5⟩

/-- The grid `create_grid [ob5] 1 1` actually returns: 4 x 4 with origin
(-2, -2) (Scenario A of the spec wrongly announces 7 x 7 with origin
(-3, -3)). -/
def g5 : Grid :=
  ⟨4, 4, -2, -2, populate 1 1 (-2) (-2) 4 4 [ob5] fun _ _ => 0⟩

/-- The grid `create_grid [ob5] 1 2` returns (margin 2 instead of 1). -/
def g5b : Grid :=
  ⟨4, 4, -2, -2, populate 1 2 (-2) (-2) 4 4 [ob5] fun _ _ => 0⟩

theorem northMin_ob5 : northMin [ob5] = -2 := by
  unfold northMin listMinD ob5
  norm_num

theorem northMax_ob5 : northMax [ob5] = 2 := by
  unfold northMax listMaxD ob5
  norm_num

theorem eastMin_ob5 : eastMin [ob5] = -2 := by
  unfold eastMin listMinD ob5
  norm_num

theorem eastMax_ob5 : eastMax [ob5] = 2 := by
  unfold eastMax listMaxD ob5
  norm_num

theorem northSize_ob5 : northSize [ob5] = 4 := by
  rw [northSize_eq, northMax_ob5, northMin_ob5]; decide

theorem eastSize_ob5 : eastSize [ob5] = 4 := by
  rw [eastSize_eq, eastMax_ob5, eastMin_ob5]; decide

theorem create_grid_ob5 : create_grid [ob5] 1 1 = some g5 := by
  unfold create_grid
  rw [if_neg (by simp), if_neg (by rw [northSize_ob5, eastSize_ob5]; norm_num)]
  rw [northSize_ob5, eastSize_ob5, northMin_ob5, eastMin_ob5]
  rfl

theorem create_grid_ob5_m2 : create_grid [ob5] 1 2 = some g5b := by
  unfold create_grid
  rw [if_neg (by simp), if_neg (by rw [northSize_ob5, eastSize_ob5]; norm_num)]
  rw [northSize_ob5, eastSize_ob5, northMin_ob5, eastMin_ob5]
  rfl

theorem obN0_ob5 : obN0 ob5 1 (-2) 4 = 0 := by
  unfold obN0 ob5 clip pyInt
  norm_num

theorem obN1_ob5 : obN1 ob5 1 (-2) 4 = 3 := by
  unfold obN1 ob5 clip pyInt
  norm_num

theorem obE0_ob5 : obE0 ob5 1 (-2) 4 = 0 := by
  unfold obE0 ob5 clip pyInt
  norm_num

theorem obE1_ob5 : obE1 ob5 1 (-2) 4 = 3 := by
  unfold obE1 ob5 clip pyInt
  norm_num

/-- Every cell of the 4 x 4 grid for Scenario A is BLOCKED. -/
theorem g5_cells_one : ∀ r < 4, ∀ c < 4, g5.cells r c = 1 := by
  intro r hr c hc
  show populate 1 1 (-2) (-2) 4 4 [ob5] (fun _ _ => 0) r c = 1
  rw [populate_apply]
  have hm : marksCell 1 1 (-2) (-2) 4 4 ob5 r c := by
    refine ⟨by norm_num [ob5], ?_, ?_, ?_, ?_⟩
    · rw [obN0_ob5]; omega
    · rw [obN1_ob5]; omega
    · rw [obE0_ob5]; omega
    · rw [obE1_ob5]; omega
  rw [if_pos ⟨ob5, List.mem_cons_self ob5 [], hm⟩]

/-- Obstacle for the C1 counterexample: with margin -3/2 its inflated
footprint is the empty interval [1.8, 1.2] in index space, yet the code still
marks cell (1, 1) because both bounds round down to index 1. -/
def obA : Obstacle := ⟨5/2, 5/2, 10, 6/5, 6/5, 0⟩

/-- The grid `create_grid [obA] 0 (-(3/2))` returns. -/
def gA : Grid :=
  ⟨3, 3, 1, 1, populate 0 (-(3/2)) 1 1 3 3 [obA] fun _ _ => 0⟩

theorem northMin_obA : northMin [obA] = 1 := by
  unfold northMin listMinD obA
  norm_num

theorem northMax_obA : northMax [obA] = 4 := by
  unfold northMax listMaxD obA
  simp only [List.map_cons, List.map_nil, List.foldl_nil]
  rw [Int.ceil_eq_iff]
  constructor <;> norm_num

theorem eastMin_obA : eastMin [obA] = 1 := by
  unfold eastMin listMinD obA
  norm_num

theorem eastMax_obA : eastMax [obA] = 4 := by
  unfold eastMax listMaxD obA
  simp only [List.map_cons, List.map_nil, List.foldl_nil]
  rw [Int.ceil_eq_iff]
  constructor <;> norm_num

theorem northSize_obA : northSize [obA] = 3 := by
  rw [northSize_eq, northMax_obA, northMin_obA]; decide

theorem eastSize_obA : eastSize [obA] = 3 := by
  rw [eastSize_eq, eastMax_obA, eastMin_obA]; decide

theorem create_grid_obA : create_grid [obA] 0 (-(3/2)) = some gA := by
  unfold create_grid
  rw [if_neg (by simp), if_neg (by rw [northSize_obA, eastSize_obA]; norm_num)]
  rw [northSize_obA, eastSize_obA, northMin_obA, eastMin_obA]
  rfl

theorem obN0_obA : obN0 obA (-(3/2)) 1 3 = 1 := by
  unfold obN0 obA clip pyInt
  norm_num

theorem obN1_obA : obN1 obA (-(3/2)) 1 3 = 1 := by
  unfold obN1 obA clip pyInt
  norm_num

theorem obE0_obA : obE0 obA (-(3/2)) 1 3 = 1 := by
  unfold obE0 obA clip pyInt
  norm_num

theorem obE1_obA : obE1 obA (-(3/2)) 1 3 = 1 := by
  unfold obE1 obA clip pyInt
  norm_num

theorem gA_cells_one : gA.cells 1 1 = 1 := by
  show populate 0 (-(3/2)) 1 1 3 3 [obA] (fun _ _ => 0) 1 1 = 1
  rw [populate_apply]
  have hm : marksCell 0 (-(3/2)) 1 1 3 3 obA 1 1 := by
    refine ⟨by norm_num [obA], ?_, ?_, ?_, ?_⟩
    · rw [obN0_obA]; omega
    · rw [obN1_obA]; omega
    · rw [obE0_obA]; omega
    · rw [obE1_obA]; omega
  rw [if_pos ⟨obA, List.mem_cons_self obA [], hm⟩]

/-- **C1 (counterexample)**: on the single-obstacle input `obA` with altitude
0 and margin -3/2 (a valid input per the claim: non-empty data, non-negative
half-extents, finite altitude and margin), the returned grid has cell (1, 1)
BLOCKED although no obstacle's clamped inflated footprint covers that cell's
unit square — the inflated footprint is an empty interval, so it covers
nothing, yet `int(clip(...))` collapses both bounds to index 1. -/
theorem create_grid_blocked_not_covered :
    create_grid [obA] 0 (-(3/2)) = some gA ∧
      (0 : ℚ) ≤ obA.dNorth ∧ (0 : ℚ) ≤ obA.dEast ∧
      1 < gA.north_size ∧ 1 < gA.east_size ∧
      gA.cells 1 1 = 1 ∧
      ¬ specBlocked [obA] 0 (-(3/2)) gA.north_min gA.east_min
        (northSize [obA]) (eastSize [obA]) 1 1 := by
  refine ⟨create_grid_obA, by norm_num [obA], by norm_num [obA],
    by decide, by decide, gA_cells_one, ?_⟩
  rintro ⟨o, ho, -, hcov, -⟩
  have ho' : o = obA := by simpa using ho
  subst ho'
  rw [northSize_obA] at hcov
  have hgA : ((gA.north_min : ℤ) : ℚ) = 1 := by norm_num [gA]
  obtain ⟨x, h1, h2, -, -⟩ := hcov
  rw [hgA] at h1 h2
  unfold clip obA at h1 h2
  norm_num at h1 h2
  linarith

/-- **C2**: `create_grid` marks cells for an obstacle exactly when the strict
altitude test `obstacle.altitude + half_height + margin > altitude` passes:
the returned cells coincide with the cells obtained by processing only the
obstacles passing the test, and an obstacle failing the test leaves the grid
unchanged at its loop step. -/
theorem create_grid_altitude_filter {data : List Obstacle} {da sd : ℚ}
    {g : Grid} (h : create_grid data da sd = some g) :
    g.cells = populate da sd (northMin data) (eastMin data) (northSize data)
        (eastSize data)
        (data.filter fun o => decide (da < o.alt + o.dAlt + sd))
        (fun _ _ => 0) ∧
      ∀ o ∈ data, ¬ da < o.alt + o.dAlt + sd →
        ∀ g' : ℕ → ℕ → ℕ, processObstacle da sd (northMin data)
          (eastMin data) (northSize data) (eastSize data) g' o = g' := by
  obtain ⟨-, -, -, -, -, -, -, hcell⟩ := create_grid_eq_some h
  refine ⟨?_, fun o _ ho g' => processObstacle_skip _ _ _ _ _ _ _ _ ho⟩
  rw [hcell]
  exact populate_filter _ _ _ _ _ _ _ _

/-- **C3**: for a non-empty obstacle list the grid dimensions equal
`ceil(north_max - north_min) x ceil(east_max - east_min)` computed from the
uninflated footprints, and do not depend on the altitude or margin
arguments. -/
theorem create_grid_dimensions (data : List Obstacle) (da sd da' sd' : ℚ)
    (hne : data ≠ []) :
    ((create_grid data da sd).map fun g => (g.north_size, g.east_size)) =
        ((create_grid data da' sd').map fun g => (g.north_size, g.east_size)) ∧
      ∀ g : Grid, create_grid data da sd = some g →
        (g.north_size : ℤ) = ⌈((northMax data : ℚ) - (northMin data : ℚ))⌉ ∧
        (g.east_size : ℤ) = ⌈((eastMax data : ℚ) - (eastMin data : ℚ))⌉ := by
  constructor
  · by_cases h2 : northSize data < 0 ∨ eastSize data < 0
    · simp [create_grid, hne, h2]
    · simp [create_grid, hne, h2]
  · intro g hg
    obtain ⟨-, hns0, hes0, h1, h2, -, -, -⟩ := create_grid_eq_some hg
    constructor
    · rw [h1, Int.toNat_of_nonneg hns0]; rfl
    · rw [h2, Int.toNat_of_nonneg hes0]; rfl

/-- Fixture for the C4 counterexample: a large obstacle with non-negative
half-extents. -/
def obB1 : Obstacle := ⟨0, 0, 0, 10, 10, 0⟩

/-- Fixture for the C4 counterexample: an obstacle with negative
half-extents. -/
def obB2 : Obstacle := ⟨0, 0, 0, -1, -1, 0⟩

/-- **C4 (counterexample)**: `create_grid` does not validate half-extents:
on an input containing an obstacle with a negative half-extent it can still
succeed and return a grid, because the bounding extent (dominated here by the
other obstacle) stays non-degenerate. -/
theorem create_grid_no_invalid_input_check :
    obB2.dNorth < 0 ∧ obB2 ∈ [obB1, obB2] ∧
      (create_grid [obB1, obB2] 0 0).isSome = true := by
  have hn : northSize [obB1, obB2] = 20 := by
    have ha : northMin [obB1, obB2] = -10 := by
      unfold northMin listMinD obB1 obB2
      norm_num
    have hb : northMax [obB1, obB2] = 10 := by
      unfold northMax listMaxD obB1 obB2
      norm_num
    rw [northSize_eq, ha, hb]; decide
  have he : eastSize [obB1, obB2] = 20 := by
    have ha : eastMin [obB1, obB2] = -10 := by
      unfold eastMin listMinD obB1 obB2
      norm_num
    have hb : eastMax [obB1, obB2] = 10 := by
      unfold eastMax listMaxD obB1 obB2
      norm_num
    rw [eastSize_eq, ha, hb]; decide
  refine ⟨by norm_num [obB2], by simp, ?_⟩
  unfold create_grid
  rw [if_neg (by simp), if_neg (by rw [hn, he]; norm_num)]
  rfl

/-- **C4 (amended)**: `create_grid` fails exactly when the obstacle list is
empty or a computed grid dimension is negative; for a non-empty list whose
half-extents are all non-negative it never fails (so any failure comes from
an empty list or some negative half-extent), but an input containing a
negative half-extent need not fail. -/
theorem create_grid_failure (data : List Obstacle) (da sd : ℚ) :
    (create_grid data da sd = none ↔
        data = [] ∨ northSize data < 0 ∨ eastSize data < 0) ∧
      (data ≠ [] → (∀ o ∈ data, 0 ≤ o.dNorth ∧ 0 ≤ o.dEast) →
        ∃ g, create_grid data da sd = some g) := by
  constructor
  · by_cases h1 : data = []
    · simp [create_grid, h1]
    · by_cases h2 : northSize data < 0 ∨ eastSize data < 0
      · simp [create_grid, h1, h2]
      · simp [create_grid, h1, h2]
  · intro hne hext
    have hn := northSize_nonneg hne fun o ho => (hext o ho).1
    have he := eastSize_nonneg hne fun o ho => (hext o ho).2
    unfold create_grid
    rw [if_neg hne, if_neg (by omega)]
    exact ⟨_, rfl⟩

/-- **C5 (counterexample)**: for Scenario A (single obstacle (0,0,5,2,2,5),
altitude 1, margin 1) the returned grid is 4 x 4 with origin (-2, -2) — the
bounding extent is computed from the uninflated footprint [-2,2]x[-2,2] — and
not the 7 x 7 grid with origin (-3, -3) announced by the spec. -/
theorem scenarioA_not_seven_by_seven :
    create_grid [ob5] 1 1 = some g5 ∧
      g5.north_size = 4 ∧ g5.east_size = 4 ∧
      g5.north_min = -2 ∧ g5.east_min = -2 ∧
      ¬ ∃ g, create_grid [ob5] 1 1 = some g ∧ g.north_size = 7 ∧
        g.east_size = 7 ∧ g.north_min = -3 ∧ g.east_min = -3 := by
  refine ⟨create_grid_ob5, rfl, rfl, rfl, rfl, ?_⟩
  rintro ⟨g, hg, h7, -, -, -⟩
  rw [create_grid_ob5] at hg
  cases hg
  exact absurd h7 (by decide)

/-- **C5 (amended)**: for Scenario A the obstacle passes the altitude test
(5 + 5 + 1 = 11 > 1) and `create_grid` returns the 4 x 4 grid with origin
(-2, -2) in which every cell (rows 0-3, cols 0-3) is BLOCKED: the inflated
footprint [-3,3]x[-3,3] strictly contains the bounding extent, so after
clamping it covers the whole grid. -/
theorem scenarioA_actual :
    create_grid [ob5] 1 1 = some g5 ∧
      g5.north_size = 4 ∧ g5.east_size = 4 ∧
      g5.north_min = -2 ∧ g5.east_min = -2 ∧
      (1 : ℚ) < ob5.alt + ob5.dAlt + 1 ∧
      ∀ r < 4, ∀ c < 4, g5.cells r c = 1 :=
  ⟨create_grid_ob5, rfl, rfl, rfl, rfl, by norm_num [ob5], g5_cells_one⟩

/-- **C10**: every cell of a returned grid holds 0 (FREE) or 1 (BLOCKED): the
grid starts all zeros and the only write is the value 1 into rectangles. -/
theorem create_grid_cells_zero_or_one {data : List Obstacle} {da sd : ℚ}
    {g : Grid} (h : create_grid data da sd = some g) (r c : ℕ) :
    g.cells r c = 0 ∨ g.cells r c = 1 := by
  obtain ⟨-, -, -, -, -, -, -, hcell⟩ := create_grid_eq_some h
  rw [hcell, populate_apply]
  split
  · exact Or.inr rfl
  · exact Or.inl rfl

/-! ### Permutation invariance (C6) -/

theorem northMin_perm {data data' : List Obstacle} (p : data.Perm data') :
    northMin data = northMin data' := by
  unfold northMin
  rw [listMinD_perm (p.map _)]

theorem northMax_perm {data data' : List Obstacle} (p : data.Perm data') :
    northMax data = northMax data' := by
  unfold northMax
  rw [listMaxD_perm (p.map _)]

theorem eastMin_perm {data data' : List Obstacle} (p : data.Perm data') :
    eastMin data = eastMin data' := by
  unfold eastMin
  rw [listMinD_perm (p.map _)]

theorem eastMax_perm {data data' : List Obstacle} (p : data.Perm data') :
    eastMax data = eastMax data' := by
  unfold eastMax
  rw [listMaxD_perm (p.map _)]

/-- **C6**: permuting the obstacle list leaves the result of `create_grid`
unchanged: it fails on one list iff it fails on the other, and when both
succeed the dimensions, origin, and every cell value coincide. -/
theorem create_grid_perm {data data' : List Obstacle} (p : data.Perm data')
    (da sd : ℚ) :
    (create_grid data da sd).isSome = (create_grid data' da sd).isSome ∧
      ∀ g g' : Grid, create_grid data da sd = some g →
        create_grid data' da sd = some g' →
        g.north_size = g'.north_size ∧ g.east_size = g'.east_size ∧
        g.north_min = g'.north_min ∧ g.east_min = g'.east_min ∧
        ∀ r c : ℕ, g.cells r c = g'.cells r c := by
  have hN := northMin_perm p
  have hE := eastMin_perm p
  have hNS : northSize data = northSize data' := by
    unfold northSize
    rw [hN, northMax_perm p]
  have hES : eastSize data = eastSize data' := by
    unfold eastSize
    rw [hE, eastMax_perm p]
  have hnil : (data = []) ↔ (data' = []) := by
    rw [← List.length_eq_zero, ← List.length_eq_zero, p.length_eq]
  constructor
  · unfold create_grid
    by_cases h1 : data = []
    · rw [if_pos h1, if_pos (hnil.mp h1)]
    · rw [if_neg h1, if_neg (fun hh => h1 (hnil.mpr hh))]
      by_cases h2 : northSize data < 0 ∨ eastSize data < 0
      · rw [if_pos h2, if_pos (by rw [← hNS, ← hES]; exact h2)]
      · rw [if_neg h2, if_neg (by rw [← hNS, ← hES]; exact h2)]
        rfl
  · intro g g' hg hg'
    obtain ⟨-, -, -, hns, hes, hnm, hem, hcell⟩ := create_grid_eq_some hg
    obtain ⟨-, -, -, hns', hes', hnm', hem', hcell'⟩ := create_grid_eq_some hg'
    refine ⟨by rw [hns, hns', hNS], by rw [hes, hes', hES],
      by rw [hnm, hnm', hN], by rw [hem, hem', hE], ?_⟩
    intro r c
    rw [hcell, hcell', populate_apply, populate_apply, ← hN, ← hE, ← hNS, ← hES]
    by_cases hex : ∃ o ∈ data, marksCell da sd (northMin data) (eastMin data)
        (northSize data) (eastSize data) o r c
    · obtain ⟨o, ho, hm⟩ := hex
      rw [if_pos ⟨o, ho, hm⟩, if_pos ⟨o, p.subset ho, hm⟩]
    · rw [if_neg hex, if_neg ?_]
      rintro ⟨o, ho, hm⟩
      exact hex ⟨o, p.symm.subset ho, hm⟩

/-! ### Margin monotonicity (C7) -/

theorem obN0_anti {o : Obstacle} {m1 m2 : ℚ} (nmin ns : ℤ) (hm : m1 ≤ m2) :
    obN0 o m2 nmin ns ≤ obN0 o m1 nmin ns :=
  pyInt_mono (clip_mono _ _ (by linarith))

theorem obN1_mono {o : Obstacle} {m1 m2 : ℚ} (nmin ns : ℤ) (hm : m1 ≤ m2) :
    obN1 o m1 nmin ns ≤ obN1 o m2 nmin ns :=
  pyInt_mono (clip_mono _ _ (by linarith))

theorem obE0_anti {o : Obstacle} {m1 m2 : ℚ} (emin es : ℤ) (hm : m1 ≤ m2) :
    obE0 o m2 emin es ≤ obE0 o m1 emin es :=
  pyInt_mono (clip_mono _ _ (by linarith))

theorem obE1_mono {o : Obstacle} {m1 m2 : ℚ} (emin es : ℤ) (hm : m1 ≤ m2) :
    obE1 o m1 emin es ≤ obE1 o m2 emin es :=
  pyInt_mono (clip_mono _ _ (by linarith))

/-- **C7**: with the altitude fixed and the altitude-test outcome unchanged,
enlarging the margin never un-blocks a cell: every cell BLOCKED at margin
`m1 ≤ m2` is still BLOCKED at margin `m2`. -/
theorem create_grid_margin_mono {data : List Obstacle} {da m1 m2 : ℚ}
    (hm : m1 ≤ m2)
    (htest : ∀ o ∈ data,
      (da < o.alt + o.dAlt + m1 ↔ da < o.alt + o.dAlt + m2))
    {g1 g2 : Grid} (h1 : create_grid data da m1 = some g1)
    (h2 : create_grid data da m2 = some g2) (r c : ℕ)
    (hb : g1.cells r c = 1) : g2.cells r c = 1 := by
  obtain ⟨-, -, -, -, -, -, -, hcell1⟩ := create_grid_eq_some h1
  obtain ⟨-, -, -, -, -, -, -, hcell2⟩ := create_grid_eq_some h2
  rw [hcell1, populate_apply] at hb
  rw [hcell2, populate_apply]
  by_cases hex : ∃ o ∈ data, marksCell da m1 (northMin data) (eastMin data)
      (northSize data) (eastSize data) o r c
  · obtain ⟨o, ho, ht, hn0, hn1, he0, he1⟩ := hex
    refine if_pos ⟨o, ho, (htest o ho).mp ht, ?_, ?_, ?_, ?_⟩
    · exact le_trans (obN0_anti _ _ hm) hn0
    · exact le_trans hn1 (obN1_mono _ _ hm)
    · exact le_trans (obE0_anti _ _ hm) he0
    · exact le_trans he1 (obE1_mono _ _ hm)
  · rw [if_neg hex] at hb
    exact absurd hb (by norm_num)

/-! ### Altitude threshold (C8) -/

/-- **C8**: for a fixed obstacle and margin the loop body of `create_grid`
has a single altitude threshold `obstacle.altitude + half_height + margin`:
at or above it the obstacle contributes nothing (the grid is returned
unchanged), and any two altitudes strictly below it yield the identical
contribution, since the marked rectangle does not depend on the altitude. -/
theorem processObstacle_altitude_threshold (o : Obstacle) (sd : ℚ)
    (nmin emin ns es : ℤ) (g : ℕ → ℕ → ℕ) :
    (∀ da : ℚ, o.alt + o.dAlt + sd ≤ da →
        processObstacle da sd nmin emin ns es g o = g) ∧
      ∀ da1 da2 : ℚ, da1 < o.alt + o.dAlt + sd → da2 < o.alt + o.dAlt + sd →
        processObstacle da1 sd nmin emin ns es g o =
          processObstacle da2 sd nmin emin ns es g o := by
  constructor
  · intro da hda
    exact processObstacle_skip _ _ _ _ _ _ _ _ (not_lt.mpr hda)
  · intro da1 da2 hda1 hda2
    unfold processObstacle
    rw [if_pos hda1, if_pos hda2]

/-! ### Index clamping (C9) -/

theorem pyInt_clip_le (x : ℚ) (s : ℤ) :
    pyInt (clip x 0 ((s : ℚ) - 1)) ≤ s - 1 := by
  calc pyInt (clip x 0 ((s : ℚ) - 1)) ≤ pyInt ((s : ℚ) - 1) :=
        pyInt_mono (clip_le_hi _ _ _)
    _ = s - 1 := by
        rw [show ((s : ℚ) - 1) = ((s - 1 : ℤ) : ℚ) by push_cast; ring,
          pyInt_intCast]

theorem pyInt_clip_nonneg {x : ℚ} {s : ℤ} (hs : 0 < s) :
    0 ≤ pyInt (clip x 0 ((s : ℚ) - 1)) := by
  have hs1 : (0 : ℚ) ≤ (s : ℚ) - 1 := by
    have : (1 : ℚ) ≤ (s : ℚ) := by exact_mod_cast hs
    linarith
  have h0 : 0 ≤ clip x 0 ((s : ℚ) - 1) := le_min (le_max_right x 0) hs1
  rw [pyInt_of_nonneg h0]
  exact Int.floor_nonneg.mpr h0

/-- **C9**: the four footprint bounds computed by `create_grid` are clamped
into `[0, rows-1]` resp. `[0, cols-1]` (when the grid has at least one row
resp. column), and every BLOCKED cell of a returned grid lies inside the
grid, so the rectangle writes never touch an out-of-range index. -/
theorem create_grid_indices_in_range {data : List Obstacle} {da sd : ℚ}
    {g : Grid} (h : create_grid data da sd = some g) :
    (∀ o : Obstacle, 0 < g.north_size →
        (0 ≤ obN0 o sd g.north_min (g.north_size : ℤ) ∧
          obN0 o sd g.north_min (g.north_size : ℤ) ≤ (g.north_size : ℤ) - 1) ∧
        (0 ≤ obN1 o sd g.north_min (g.north_size : ℤ) ∧
          obN1 o sd g.north_min (g.north_size : ℤ) ≤ (g.north_size : ℤ) - 1)) ∧
      (∀ o : Obstacle, 0 < g.east_size →
        (0 ≤ obE0 o sd g.east_min (g.east_size : ℤ) ∧
          obE0 o sd g.east_min (g.east_size : ℤ) ≤ (g.east_size : ℤ) - 1) ∧
        (0 ≤ obE1 o sd g.east_min (g.east_size : ℤ) ∧
          obE1 o sd g.east_min (g.east_size : ℤ) ≤ (g.east_size : ℤ) - 1)) ∧
      ∀ r c : ℕ, g.cells r c = 1 → r < g.north_size ∧ c < g.east_size := by
  obtain ⟨-, hns0, hes0, hns, hes, hnm, hem, hcell⟩ := create_grid_eq_some h
  refine ⟨?_, ?_, ?_⟩
  · intro o hpos
    have hs : (0 : ℤ) < (g.north_size : ℤ) := by exact_mod_cast hpos
    exact ⟨⟨pyInt_clip_nonneg hs, pyInt_clip_le _ _⟩,
      ⟨pyInt_clip_nonneg hs, pyInt_clip_le _ _⟩⟩
  · intro o hpos
    have hs : (0 : ℤ) < (g.east_size : ℤ) := by exact_mod_cast hpos
    exact ⟨⟨pyInt_clip_nonneg hs, pyInt_clip_le _ _⟩,
      ⟨pyInt_clip_nonneg hs, pyInt_clip_le _ _⟩⟩
  · intro r c hb
    rw [hcell, populate_apply] at hb
    by_cases hex : ∃ o ∈ data, marksCell da sd (northMin data) (eastMin data)
        (northSize data) (eastSize data) o r c
    · obtain ⟨o, ho, -, -, hn1, -, he1⟩ := hex
      have hrn : (r : ℤ) ≤ northSize data - 1 :=
        le_trans hn1 (pyInt_clip_le _ _)
      have hre : (c : ℤ) ≤ eastSize data - 1 :=
        le_trans he1 (pyInt_clip_le _ _)
      constructor
      · rw [hns]; omega
      · rw [hes]; omega
    · rw [if_neg hex] at hb
      exact absurd hb (by norm_num)

/-! ### Witnesses: each hypothesis-bearing claim theorem applied at a
concrete input -/

theorem create_grid_blocked_iff_covered_witness :
    g5.cells 0 0 = 1 ↔
      specBlocked [ob5] 1 1 g5.north_min g5.east_min (northSize [ob5])
        (eastSize [ob5]) 0 0 :=
  create_grid_blocked_iff_covered
    (fun o ho => by
      simp only [List.mem_singleton] at ho
      subst ho
      exact ⟨by norm_num [ob5], by norm_num [ob5]⟩)
    (fun o ho => by
      simp only [List.mem_singleton] at ho
      subst ho
      exact ⟨by norm_num [ob5], by norm_num [ob5]⟩)
    create_grid_ob5 (by decide) (by decide)

theorem create_grid_altitude_filter_witness :
    g5.cells = populate 1 1 (northMin [ob5]) (eastMin [ob5]) (northSize [ob5])
        (eastSize [ob5])
        ([ob5].filter fun o => decide ((1 : ℚ) < o.alt + o.dAlt + 1))
        (fun _ _ => 0) :=
  (create_grid_altitude_filter create_grid_ob5).1

theorem create_grid_dimensions_witness :
    ((create_grid [ob5] 1 1).map fun g => (g.north_size, g.east_size)) =
        ((create_grid [ob5] 12 3).map fun g => (g.north_size, g.east_size)) ∧
      (g5.north_size : ℤ) = ⌈((northMax [ob5] : ℚ) - (northMin [ob5] : ℚ))⌉ ∧
      (g5.east_size : ℤ) = ⌈((eastMax [ob5] : ℚ) - (eastMin [ob5] : ℚ))⌉ := by
  obtain ⟨h1, h2⟩ := create_grid_dimensions [ob5] 1 1 12 3 (by simp)
  exact ⟨h1, h2 g5 create_grid_ob5⟩

theorem create_grid_failure_witness : ∃ g, create_grid [ob5] 1 1 = some g :=
  (create_grid_failure [ob5] 1 1).2 (by simp)
    (fun o ho => by
      simp only [List.mem_singleton] at ho
      subst ho
      exact ⟨by norm_num [ob5], by norm_num [ob5]⟩)

theorem create_grid_perm_witness :
    (create_grid [ob5, ob6] 1 1).isSome = (create_grid [ob6, ob5] 1 1).isSome :=
  (create_grid_perm (List.Perm.swap ob6 ob5 []) 1 1).1

theorem create_grid_margin_mono_witness : g5b.cells 0 0 = 1 :=
  create_grid_margin_mono (by norm_num)
    (fun o ho => by
      simp only [List.mem_singleton] at ho
      subst ho
      exact ⟨fun _ => by norm_num [ob5], fun _ => by norm_num [ob5]⟩)
    create_grid_ob5 create_grid_ob5_m2 0 0
    (g5_cells_one 0 (by norm_num) 0 (by norm_num))

theorem processObstacle_altitude_threshold_witness :
    processObstacle 11 1 (-2) (-2) 4 4 (fun _ _ => 0) ob5 = (fun _ _ => 0) :=
  (processObstacle_altitude_threshold ob5 1 (-2) (-2) 4 4 (fun _ _ => 0)).1
    11 (by norm_num [ob5])

theorem create_grid_indices_in_range_witness :
    (0 ≤ obN0 ob5 1 g5.north_min (g5.north_size : ℤ) ∧
        obN0 ob5 1 g5.north_min (g5.north_size : ℤ) ≤ (g5.north_size : ℤ) - 1) ∧
      (0 ≤ obN1 ob5 1 g5.north_min (g5.north_size : ℤ) ∧
        obN1 ob5 1 g5.north_min (g5.north_size : ℤ) ≤ (g5.north_size : ℤ) - 1) :=
  (create_grid_indices_in_range create_grid_ob5).1 ob5 (by decide)

theorem create_grid_cells_zero_or_one_witness :
    g5.cells 0 0 = 0 ∨ g5.cells 0 0 = 1 :=
  create_grid_cells_zero_or_one create_grid_ob5 0 0

end ConfigSpace
